import Mathlib

/-!
Verification development for the finance-tracker repository.

The Python sources under `src/` are shallowly embedded:

* Notion pages (`RawRecord`) are records with an id and a property bag whose
  values carry the Notion type discriminator (`select`, `number`, `relation`,
  `title`, `date`), following the spec's data model (section 3).
* Fallible Python code (`try`/`except`, dict/index access that can raise) is
  embedded in `Option`: `none` models a raised exception.
* Python dicts built by keyed insertion are embedded as association lists
  grown by appending; lookup (`dict.get`) takes the last binding.
* Amounts are embedded as `Rat` (exact arithmetic); dates as calendar dates.
* Network fetches (`get_database`) are outside the repository's pure logic;
  every embedded function takes the fetched page list as a parameter.
-/

/-- Lookup in an insertion-ordered dict: the last binding for a key wins,
mirroring Python `dict` insert/overwrite followed by `dict.get(k, None)`. -/
def dictGet {α : Type} (d : List (String × α)) (k : String) : Option α :=
  (d.reverse.find? (fun e => decide (e.1 = k))).map (·.2)

/-- A calendar date (the part of a Python `datetime` the claims depend on). -/
structure Date where
  year : Nat
  month : Nat
  day : Nat
deriving DecidableEq, Repr

/-- Injective numeric key of a calendar date; chronological order on valid
dates is the `Nat` order of the keys. -/
def Date.key (d : Date) : Nat :=
  d.year * 10000 + d.month * 100 + d.day

/-- Number of days in a month, as `datetime.fromisoformat` validates it. -/
def daysInMonth (y m : Nat) : Nat :=
  if m = 2 then (if y % 4 = 0 ∧ (y % 100 ≠ 0 ∨ y % 400 = 0) then 29 else 28)
  else if m = 4 ∨ m = 6 ∨ m = 9 ∨ m = 11 then 30
  else 31

/-- Split a character list on the dash separator. -/
def splitOnDash : List Char → List (List Char)
  | [] => [[]]
  | c :: cs =>
    let rest := splitOnDash cs
    if c = '-' then [] :: rest
    else
      match rest with
      | r :: rs => (c :: r) :: rs
      | [] => [[c]]

/-- Read a nonempty all-digit character list as a natural number. -/
def digitsToNatAux : List Char → Nat → Option Nat
  | [], acc => some acc
  | c :: cs, acc =>
    if c.isDigit then digitsToNatAux cs (acc * 10 + (c.toNat - ('0').toNat))
    else none

/-- Read a character list as a natural number; `none` when empty or any
character is not a digit. -/
def digitsToNat (cs : List Char) : Option Nat :=
  match cs with
  | [] => none
  | _ => digitsToNatAux cs 0

/-- Model of the standard-library `datetime.fromisoformat` on calendar-date
strings `YYYY-MM-DD`: returns the parsed date, or `none` (a raised
`ValueError`) when the string is not a valid ISO-8601 calendar date. -/
def datetime_fromisoformat (s : String) : Option Date :=
  match splitOnDash s.toList with
  | [ys, ms, ds] =>
    if ys.length = 4 ∧ ms.length = 2 ∧ ds.length = 2 then
      match digitsToNat ys, digitsToNat ms, digitsToNat ds with
      | some y, some m, some d =>
        if 1 ≤ m ∧ m ≤ 12 ∧ 1 ≤ d ∧ d ≤ daysInMonth y m then
          some ⟨y, m, d⟩
        else none
      | _, _, _ => none
    else none
  | _ => none

/-- A Notion property value, tagged with its type discriminator (spec
section 3).  `select` holds the option name (`none` for a null select),
`number` the numeric value (`none` for null), `relation` the related page
ids, `title` the text contents of the rich-text runs, `date` the start
string (`none` for a null date). -/
inductive PropValue where
  | select (name : Option String)
  | number (value : Option Rat)
  | relation (ids : List String)
  | title (texts : List String)
  | date (start : Option String)
deriving DecidableEq, Repr

/-- A raw record from the remote source: stable id plus a property bag keyed
by human-readable column name (spec section 3). -/
structure RawRecord where
  id : String
  properties : List (String × PropValue)
deriving DecidableEq, Repr

/-- Property-bag lookup: `props.get(column_name)`. -/
def propsFind (props : List (String × PropValue)) (column_name : String) :
    Option PropValue :=
  (props.find? (fun e => decide (e.1 = column_name))).map (·.2)

/-- `extract_select_type_info(props, column_name)` from
`connectors/notion_utils.py`: the selected option's name, `none` when the
column is absent, not a select, the select is null, or it has no name. -/
def extract_select_type_info (props : List (String × PropValue))
    (column_name : String) : Option String :=
  match propsFind props column_name with
  | some (.select nm) => nm
  | _ => none

/-- `extract_number_type_info(props, column_name)` from
`connectors/notion_utils.py`: the number value, `none` when absent. -/
def extract_number_type_info (props : List (String × PropValue))
    (column_name : String) : Option Rat :=
  match propsFind props column_name with
  | some (.number v) => v
  | _ => none

/-- `extract_relation_type_info(props, column_name)` from
`connectors/notion_utils.py`: the list of related page ids, `none` when the
column is absent or not a relation. -/
def extract_relation_type_info (props : List (String × PropValue))
    (column_name : String) : Option (List String) :=
  match propsFind props column_name with
  | some (.relation ids) => some ids
  | _ => none

/-- `props["Name"]["title"][0]["text"]["content"]` as used by the per-record
loops: `none` models the `KeyError`/`IndexError` raised when the column is
absent, not a title, or its title list is empty. -/
def titleContent (props : List (String × PropValue)) (column_name : String) :
    Option String :=
  match propsFind props column_name with
  | some (.title (t :: _)) => some t
  | _ => none

/-- `props["Date"]["date"]["start"]`: `none` models the raised
`KeyError`/`TypeError` when the column is absent, not a date, or null. -/
def dateStart (props : List (String × PropValue)) (column_name : String) :
    Option String :=
  match propsFind props column_name with
  | some (.date st) => st
  | _ => none

/-- The chained-`get` name extraction of `get_page_name_mapping`
(`connectors/notion_utils.py`, lines 24-30).  The outer `Option` models an
exception: every step is guarded by a `.get` default except the `[0]` index
into a *present* title list, which raises `IndexError` when the list is
empty.  The inner `Option` is the extracted name (`None` in Python). -/
def page_name_of (page : RawRecord) : Option (Option String) :=
  match propsFind page.properties "Name" with
  | some (.title []) => none
  | some (.title (t :: _)) => some (some t)
  | _ => some none

/-- One page's contribution in `get_page_name_mapping`: the `(id, name)`
pair when both are truthy (Python `if page_id and page_name`), otherwise
nothing; `none` when the name extraction raises. -/
def page_name_entry (page : RawRecord) : Option (Option (String × String)) :=
  match page_name_of page with
  | none => none
  | some nm =>
    match nm with
    | some s => if page.id ≠ "" ∧ s ≠ "" then some (some (page.id, s)) else some none
    | none => some none

/-- `get_page_name_mapping(database_id)` from `connectors/notion_utils.py`,
applied to the fetched page list (the network fetch is a parameter).
Returns the id-to-name dict, or `none` when a page raises (empty title
list), which aborts the whole call: the loop has no `try`/`except`. -/
def get_page_name_mapping (pages : List RawRecord) :
    Option (List (String × String)) :=
  match pages with
  | [] => some []
  | page :: rest =>
    match page_name_entry page with
    | none => none
    | some e =>
      match get_page_name_mapping rest with
      | none => none
      | some m =>
        match e with
        | some kv => some (kv :: m)
        | none => some m

/-- The per-page body of `get_sub_to_main_categories_mapping`
(`connectors/notion_to_pandas.py`, lines 43-64): extracts the sub-category
name and its first related main-category id, resolves it through the main
id-to-name mapping; `none` models the caught exception (the record is then
skipped). -/
def subToMainEntry (mainNames : List (String × String)) (page : RawRecord) :
    Option (String × Option String) :=
  match titleContent page.properties "Name" with
  | none => none
  | some name =>
    let main_category_name :=
      match extract_relation_type_info page.properties "Main Finance Categories" with
      | some (i :: _) => dictGet mainNames i
      | _ => none
    some (name, main_category_name)

/-- `get_sub_to_main_categories_mapping` (`connectors/notion_to_pandas.py`,
lines 23-66) applied to the fetched sub-category pages and the resolved
main-categories id-to-name mapping: pages whose processing raises are
skipped by the per-page `except`. -/
def get_sub_to_main_categories_mapping (mainNames : List (String × String))
    (subPages : List RawRecord) : List (String × Option String) :=
  subPages.filterMap (subToMainEntry mainNames)

/-- The normalized unit (spec section 3): one row of the finance-tracker
DataFrame. -/
structure TransactionRow where
  name : String
  date : Date
  amount : Option Rat
  account : Option String
  cash_flow_type : Option String
  business_related : Option String
  sub_category : Option String
  main_category : Option String
deriving DecidableEq, Repr

/-- The required Name extraction of the normalizer
(`notion_to_pandas.py`, line 110). -/
def record_name (page : RawRecord) : Option String :=
  titleContent page.properties "Name"

/-- The required Date extraction and ISO parse of the normalizer
(`notion_to_pandas.py`, lines 111-112). -/
def record_date (page : RawRecord) : Option Date :=
  (dateStart page.properties "Date").bind datetime_fromisoformat

/-- The per-record loop body of `get_finance_tracker_df`
(`notion_to_pandas.py`, lines 100-139): builds one `TransactionRow`, or
`none` when the record is skipped by the `except` (missing Name title,
missing Date, or unparsable Date; no other step of the body can raise on a
typed record). -/
def processPage (subNames : List (String × String))
    (subToMain : List (String × Option String)) (page : RawRecord) :
    Option TransactionRow :=
  match record_name page with
  | none => none
  | some name =>
    match record_date page with
    | none => none
    | some date =>
      let amount := extract_number_type_info page.properties "Amount"
      let account := extract_select_type_info page.properties "Account"
      let cash_flow_type := extract_select_type_info page.properties "Cash Flow Type"
      let business_related := extract_select_type_info page.properties "Business Related?"
      let sub_category_name :=
        match extract_relation_type_info page.properties "Sub Category" with
        | some (i :: _) => dictGet subNames i
        | _ => none
      let main_category :=
        match sub_category_name with
        | none => none
        | some sn => Option.join (dictGet subToMain sn)
      some ⟨name, date, amount, account, cash_flow_type, business_related,
            sub_category_name, main_category⟩

/-- The whole per-record loop of `get_finance_tracker_df`: one row per
record that processes without raising, in input order. -/
def normalize_records (subNames : List (String × String))
    (subToMain : List (String × Option String)) (pages : List RawRecord) :
    List TransactionRow :=
  pages.filterMap (processPage subNames subToMain)

/-- A record is valid when its Name title is present and its Date is present
and ISO-8601-parsable (spec sections 3-4). -/
def validRecord (page : RawRecord) : Prop :=
  (record_name page).isSome ∧ (record_date page).isSome

instance (page : RawRecord) : Decidable (validRecord page) :=
  inferInstanceAs (Decidable ((record_name page).isSome ∧ (record_date page).isSome))

/-- `get_finance_tracker_df` (`notion_to_pandas.py`, lines 76-143) applied
to the fetched sub-category, main-category and transaction page lists:
resolves the sub-category id-to-name mapping and the sub-to-main mapping,
then normalizes the transaction pages.  `none` models an exception raised
outside the per-record `try` (a name-mapping build aborting). -/
def get_finance_tracker_df (subPages mainPages finPages : List RawRecord) :
    Option (List TransactionRow) :=
  match get_page_name_mapping subPages with
  | none => none
  | some subNames =>
    match get_page_name_mapping mainPages with
    | none => none
    | some mainNames =>
      some (normalize_records subNames
        (get_sub_to_main_categories_mapping mainNames subPages) finPages)

/-- One row of the chart-side DataFrame: the normalizer's columns with a
numeric amount, plus the `month_year` column (`none` until
`add_month_year_column` sets it). -/
structure Row where
  name : String
  date : Date
  amount : Rat
  account : Option String
  cash_flow_type : Option String
  business_related : Option String
  sub_category : Option String
  main_category : Option String
  month_year : Option String
deriving DecidableEq, Repr

/-- `str(period)` for a monthly period: `YYYY-MM`
(`df["date"].dt.to_period("M").astype(str)`). -/
def month_year_str (d : Date) : String :=
  toString d.year ++ "-" ++
    (if d.month < 10 then "0" ++ toString d.month else toString d.month)

/-- `add_month_year_column` from `graphs/utils.py` (lines 62-78), in
state-passing form: the first component is the state of the caller's table
object after the call, the second the returned table.  The function assigns
`df[date_column]` (a datetime conversion, the identity here) and
`df["month_year"]` in place and returns the same object, so both components
are the mutated table. -/
def add_month_year_column (df : List Row) : List Row × List Row :=
  let out := df.map (fun r => { r with month_year := some (month_year_str r.date) })
  (out, out)

/-- `df[df["business_related"] == b]`: the row-selection step every
business/personal chart starts with (`graphs/subcategory.py` line 36,
`graphs/revenue_vs_expense_totals.py` lines 26 and 83).  A pandas `==`
comparison with a missing value is false, so rows whose flag is null or any
other string are dropped. -/
def filter_business_related (df : List Row) (b : String) : List Row :=
  df.filter (fun r => decide (r.business_related = some b))

/-- Modelled from the spec: `graph_utils.preprocess_business_data` is called
by `graphs/bus_expense_vs_revenue_totals.py`,
`graphs/bus_expense_vs_revenue_waterfall.py` and
`graphs/bus_transfer_to_savings_totals.py` but its definition is missing
from the repository sources.  Per the spec's category filter and month
bucketing (section 4.5) and the inline equivalent in
`graphs/revenue_vs_expense_totals.py` (lines 25-27), it copies the table,
keeps the rows whose business-relation flag equals `"Business-Related"`,
and adds the month-year column. -/
def preprocess_business_data (df : List Row) : List Row :=
  (add_month_year_column (filter_business_related df "Business-Related")).2

/-- `df[df["cash_flow_type"] == c]` for one cash-flow kind. -/
def filter_cash_flow (df : List Row) (c : String) : List Row :=
  df.filter (fun r => decide (r.cash_flow_type = some c))

/-- The combined table of
`graph_business_related_expense_vs_revenue_totals`
(`graphs/bus_expense_vs_revenue_totals.py`, lines 30-40): revenue rows,
expense rows, and the Transfer-to-Savings rows relabeled to `"Expense"`. -/
def bus_expense_vs_revenue_combined (df : List Row) : List Row :=
  let pre := preprocess_business_data df
  let revenue_df := filter_cash_flow pre "Revenue"
  let expense_df := filter_cash_flow pre "Expense"
  let transfer_to_savings_df :=
    (filter_cash_flow pre "Transfer to Savings").map
      (fun r => { r with cash_flow_type := some "Expense" })
  revenue_df ++ expense_df ++ transfer_to_savings_df

/-- The total-profit value of
`graph_business_related_expense_vs_revenue_totals`
(`graphs/bus_expense_vs_revenue_totals.py`, lines 47-50): total revenue
minus total expenses minus total transfers to savings, on the filtered
table (the relabeling does not touch amounts). -/
def bus_total_profit (df : List Row) : Rat :=
  let pre := preprocess_business_data df
  ((filter_cash_flow pre "Revenue").map (·.amount)).sum
    - ((filter_cash_flow pre "Expense").map (·.amount)).sum
    - ((filter_cash_flow pre "Transfer to Savings").map (·.amount)).sum

/-- The monthly total of one cash-flow kind in a shaped table: the bar
height the renderer stacks for that month and kind, and what
`add_monthly_total_annot`-style group-by-sum computes
(`graphs/utils.py`, lines 190-225). -/
def monthly_cash_flow_total (df : List Row) (my c : String) : Rat :=
  ((df.filter (fun r =>
      decide (r.month_year = some my) && decide (r.cash_flow_type = some c))).map
    (·.amount)).sum

/-- The combined (negated) table of
`graph_business_related_expense_vs_revenue_waterfall`
(`graphs/bus_expense_vs_revenue_waterfall.py`, lines 38-50): expense and
savings-transfer amounts negated, revenue kept positive. -/
def bus_waterfall_combined (df : List Row) : List Row :=
  let pre := preprocess_business_data df
  let revenue_df := filter_cash_flow pre "Revenue"
  let expense_df := (filter_cash_flow pre "Expense").map
    (fun r => { r with amount := -1 * r.amount })
  let savings_df := (filter_cash_flow pre "Transfer to Savings").map
    (fun r => { r with amount := -1 * r.amount })
  expense_df ++ savings_df ++ revenue_df

/-- `combined_df.groupby("date")...amount.sum()`
(`graphs/bus_expense_vs_revenue_waterfall.py`, lines 60-72): one per-date
net amount for each distinct exact date. -/
def waterfall_date_groups (rows : List Row) : List (Date × Rat) :=
  ((rows.map (·.date)).dedup).map (fun d =>
    (d, ((rows.filter (fun r => decide (r.date = d))).map (·.amount)).sum))

/-- Chronological comparison of per-date entries. -/
def byDateLe (a b : Date × Rat) : Prop :=
  a.1.key ≤ b.1.key

instance : DecidableRel byDateLe := fun a b => Nat.decLe a.1.key b.1.key

instance : IsTotal (Date × Rat) byDateLe :=
  ⟨fun a b => Nat.le_total a.1.key b.1.key⟩

instance : IsTrans (Date × Rat) byDateLe :=
  ⟨fun _ _ _ h h2 => Nat.le_trans h h2⟩

/-- The waterfall's relative-delta series
(`graphs/bus_expense_vs_revenue_waterfall.py`, lines 60-82): the per-date
nets sorted chronologically (`sort_values(by="date")`), each rendered as a
relative delta. -/
def bus_waterfall_deltas (df : List Row) : List (Date × Rat) :=
  List.insertionSort byDateLe (waterfall_date_groups (bus_waterfall_combined df))

/-- The three-part group key of the sub-category charts
(`graphs/subcategory.py`, lines 41-43): `(month_year, main_category,
sub_category)`.  Pandas `groupby` drops rows whose key contains a missing
value (`dropna=True` default), so the key is `none` when any component is
null. -/
def subcatKey (r : Row) : Option (String × String × String) :=
  match r.month_year, r.main_category, r.sub_category with
  | some my, some mc, some sc => some (my, mc, sc)
  | _, _, _ => none

/-- The filtered table of `_filter_and_prepare_data`
(`graphs/subcategory.py`, lines 35-38): business-relation filter, month
bucketing, cash-flow-type filter (`isin` is false on missing values). -/
def subcat_filtered (df : List Row) (b : String) (cash_flow_types : List String) :
    List Row :=
  let df1 := filter_business_related df b
  let df2 := (add_month_year_column df1).2
  df2.filter (fun r =>
    match r.cash_flow_type with
    | some c => cash_flow_types.contains c
    | none => false)

/-- `groupby(["month_year", "main_category", "sub_category"])[amount].sum()`
(`graphs/subcategory.py`, lines 41-43): one summed amount per group key
present in the table.  (Pandas emits the groups sorted by key; row order is
not modelled, every claim below is order-insensitive.) -/
def subcat_triples (df : List Row) : List ((String × String × String) × Rat) :=
  ((df.filterMap subcatKey).dedup).map (fun k =>
    (k, ((df.filter (fun r => decide (subcatKey r = some k))).map (·.amount)).sum))

/-- One row of the grouped DataFrame `_filter_and_prepare_data` returns:
group key, summed amount, and the merged-in `main_category_sum` and
`amount_monthly_total` columns (`graphs/subcategory.py`, lines 45-66). -/
structure GRow where
  month_year : String
  main_category : String
  sub_category : String
  amount : Rat
  main_category_sum : Rat
  amount_monthly_total : Rat
deriving DecidableEq, Repr

/-- The grouped DataFrame of `_filter_and_prepare_data`
(`graphs/subcategory.py`, lines 35-83): per-group sums with the
main-category-per-month sums and the monthly totals merged back in (the
left merges always match a group's own month and main category).  The
cosmetic `sort_values`, `color` and categorical-order steps do not change
any of these values and are not modelled. -/
def subcat_grouped (df : List Row) (b : String) (cash_flow_types : List String) :
    List GRow :=
  let triples := subcat_triples (subcat_filtered df b cash_flow_types)
  triples.map (fun t =>
    { month_year := t.1.1
      main_category := t.1.2.1
      sub_category := t.1.2.2
      amount := t.2
      main_category_sum :=
        ((triples.filter (fun u =>
            decide (u.1.1 = t.1.1) && decide (u.1.2.1 = t.1.2.1))).map (·.2)).sum
      amount_monthly_total :=
        ((triples.filter (fun u => decide (u.1.1 = t.1.1))).map (·.2)).sum })

/-- `_filter_and_prepare_data` in state-passing form: the first component is
the state of the caller's table object after the call, the second the
returned grouped table.  The body's first statement is `df = df.copy()`
(`graphs/subcategory.py`, line 35), so every later in-place operation hits
the copy and the caller's object is returned unchanged. -/
def filter_and_prepare_data_call (df : List Row) (b : String)
    (cash_flow_types : List String) : List Row × List GRow :=
  (df, subcat_grouped df b cash_flow_types)

/-- The per-row percentage `_create_percent_stacked_bar_chart` computes
(`graphs/subcategory.py`, lines 157-159): the group's summed amount divided
by that month's total across all sub-categories in view, times 100. -/
def subcat_percentage (g : GRow) : Rat :=
  g.amount / g.amount_monthly_total * 100

/-- The sum of the sub-category percentages shown for one month. -/
def subcat_percent_sum (df : List Row) (b : String)
    (cash_flow_types : List String) (my : String) : Rat :=
  (((subcat_grouped df b cash_flow_types).filter
      (fun g => decide (g.month_year = my))).map subcat_percentage).sum

/-- That month's total amount across all sub-categories in view
(`graphs/subcategory.py`, line 54). -/
def subcat_monthly_total (df : List Row) (b : String)
    (cash_flow_types : List String) (my : String) : Rat :=
  (((subcat_triples (subcat_filtered df b cash_flow_types)).filter
      (fun u => decide (u.1.1 = my))).map (·.2)).sum

/-- The combined table of `graph_business_revenue_vs_expense_and_tax_totals`
(`graphs/revenue_vs_expense_totals.py`, lines 25-35): business filter,
month bucketing, then revenue rows, expense rows, and the
Reserved-for-Taxes rows relabeled to `"Expense"`. -/
def busrev_combined (df : List Row) : List Row :=
  let d := (add_month_year_column (filter_business_related df "Business-Related")).2
  let revenue_df := filter_cash_flow d "Revenue"
  let expense_df := filter_cash_flow d "Expense"
  let taxes_df := (filter_cash_flow d "Reserved for Taxes").map
    (fun r => { r with cash_flow_type := some "Expense" })
  revenue_df ++ expense_df ++ taxes_df

theorem sum_map_if_add {β : Type} [DecidableEq β] (K : List β) (hK : K.Nodup)
    (k₀ : β) (hk : k₀ ∈ K) (c : Rat) (f : β → Rat) :
    (K.map (fun k => if k₀ = k then c + f k else f k)).sum = c + (K.map f).sum := by
  induction K with
  | nil => cases hk
  | cons a K ih =>
    rcases List.mem_cons.mp hk with h | h
    · subst h
      have hcong : ∀ k ∈ K, (if k₀ = k then c + f k else f k) = f k := by
        intro k hkK
        have hne : k₀ ≠ k := fun e => (List.nodup_cons.mp hK).1 (e ▸ hkK)
        simp [hne]
      simp only [List.map_cons, List.sum_cons, if_pos rfl, if_true]
      rw [List.map_congr_left hcong]
      ring
    · have hne : k₀ ≠ a := by
        intro e
        exact (List.nodup_cons.mp hK).1 (e ▸ h)
      simp only [List.map_cons, List.sum_cons, if_neg hne]
      rw [ih (List.nodup_cons.mp hK).2 h]
      ring

theorem sum_over_fibers {α β : Type} [DecidableEq β] (key : α → Option β) (amt : α → Rat) :
    ∀ (l : List α) (K : List β), K.Nodup →
      (∀ x ∈ l, ∀ k, key x = some k → k ∈ K) →
      (K.map (fun k =>
        ((l.filter (fun x => decide (key x = some k))).map amt).sum)).sum
        = ((l.filter (fun x => (key x).isSome)).map amt).sum
  | [], K, _, _ => by simp
  | x :: l, K, hK, hcov => by
    have ih := sum_over_fibers key amt l K hK
      (fun y hy k hk => hcov y (List.mem_cons_of_mem _ hy) k hk)
    cases hx : key x with
    | none =>
      have hstep : ∀ k ∈ K,
          ((List.filter (fun y => decide (key y = some k)) (x :: l)).map amt).sum
          = ((List.filter (fun y => decide (key y = some k)) l).map amt).sum := by
        intro _ _
        simp [List.filter_cons, hx]
      rw [List.map_congr_left hstep, ih]
      simp [List.filter_cons, hx]
    | some k₀ =>
      have hk₀ : k₀ ∈ K := hcov x (List.mem_cons_self x l) k₀ hx
      have hstep : ∀ k ∈ K,
          ((List.filter (fun y => decide (key y = some k)) (x :: l)).map amt).sum
          = if k₀ = k
            then amt x + ((List.filter (fun y => decide (key y = some k)) l).map amt).sum
            else ((List.filter (fun y => decide (key y = some k)) l).map amt).sum := by
        intro k _
        by_cases h : k₀ = k
        · subst h
          simp [List.filter_cons, hx]
        · simp [List.filter_cons, hx, h, Ne.symm h]
      rw [List.map_congr_left hstep, sum_map_if_add K hK k₀ hk₀ (amt x)
        (fun k => ((List.filter (fun y => decide (key y = some k)) l).map amt).sum), ih]
      simp [List.filter_cons, hx]

theorem sum_over_dedup_fibers {α β : Type} [DecidableEq β] (key : α → Option β)
    (amt : α → Rat) (l : List α) :
    (((l.filterMap key).dedup).map (fun k =>
        ((l.filter (fun x => decide (key x = some k))).map amt).sum)).sum
      = ((l.filter (fun x => (key x).isSome)).map amt).sum :=
  sum_over_fibers key amt l _ (List.nodup_dedup _)
    (fun x hx k hk => List.mem_dedup.mpr (List.mem_filterMap.mpr ⟨x, hx, hk⟩))

theorem sum_over_dedup_fibers_total {α β : Type} [DecidableEq β] (key : α → β)
    (amt : α → Rat) (l : List α) :
    (((l.map key).dedup).map (fun k =>
        ((l.filter (fun x => decide (key x = k))).map amt).sum)).sum
      = (l.map amt).sum := by
  have h := sum_over_dedup_fibers (fun x => some (key x)) amt l
  have h1 : l.filterMap (fun x => some (key x)) = l.map key := by
    simp [List.filterMap_eq_map_iff_forall_eq_some]
  have h2 : ∀ k, (l.filter (fun x => decide (some (key x) = some k)))
      = l.filter (fun x => decide (key x = k)) := by
    intro k
    exact List.filter_congr (fun x _ => by simp)
  have h3 : l.filter (fun x => (some (key x)).isSome) = l := by
    simp
  rw [h1, h3] at h
  rw [← h]
  exact congrArg _ (List.map_congr_left (fun k _ => by rw [h2 k]))

theorem dictGet_mem_values {α : Type} (d : List (String × α)) (k : String) (v : α)
    (h : dictGet d k = some v) : v ∈ d.map (·.2) := by
  unfold dictGet at h
  cases hf : d.reverse.find? (fun e => decide (e.1 = k)) with
  | none => rw [hf] at h; cases h
  | some e =>
    rw [hf] at h
    have he : e ∈ d := List.mem_reverse.mp (List.mem_of_find?_eq_some hf)
    have hv : e.2 = v := by simpa using h
    exact hv ▸ List.mem_map_of_mem (·.2) he

theorem processPage_eq_none_iff (sn : List (String × String))
    (sm : List (String × Option String)) (page : RawRecord) :
    processPage sn sm page = none ↔ ¬ validRecord page := by
  unfold processPage validRecord
  cases h1 : record_name page <;> cases h2 : record_date page <;> simp [h1, h2]

theorem processPage_fields (sn : List (String × String))
    (sm : List (String × Option String)) (page : RawRecord)
    (h : validRecord page) :
    ∃ row, processPage sn sm page = some row ∧
      row.amount = extract_number_type_info page.properties "Amount" ∧
      row.account = extract_select_type_info page.properties "Account" ∧
      row.cash_flow_type = extract_select_type_info page.properties "Cash Flow Type" := by
  obtain ⟨h1, h2⟩ := h
  rcases hn : record_name page with _ | name
  · rw [hn] at h1; cases h1
  rcases hd : record_date page with _ | date
  · rw [hd] at h2; cases h2
  have hp : ∃ row, processPage sn sm page = some row := by
    unfold processPage
    rw [hn, hd]
    exact ⟨_, rfl⟩
  obtain ⟨row, hrow⟩ := hp
  refine ⟨row, hrow, ?_, ?_, ?_⟩ <;>
  · unfold processPage at hrow
    rw [hn, hd] at hrow
    injection hrow with hr
    subst hr
    rfl

theorem normalize_records_length_add (sn : List (String × String))
    (sm : List (String × Option String)) :
    ∀ pages : List RawRecord,
      (normalize_records sn sm pages).length
        + (pages.filter (fun p => !(decide (validRecord p)))).length = pages.length
  | [] => rfl
  | p :: ps => by
    have ih := normalize_records_length_add sn sm ps
    by_cases hv : validRecord p
    · obtain ⟨row, hrow, -⟩ := processPage_fields sn sm p hv
      have hb : (!(decide (validRecord p))) = false := by simp [hv]
      simp [normalize_records, List.filterMap_cons, hrow, List.filter_cons, hb] at ih ⊢
      omega
    · have hnone : processPage sn sm p = none := (processPage_eq_none_iff sn sm p).mpr hv
      have hb : (!(decide (validRecord p))) = true := by simp [hv]
      simp [normalize_records, List.filterMap_cons, hnone, List.filter_cons, hb] at ih ⊢
      omega

/-- C1: on a batch in which every record has a present Name title and a
present, ISO-8601-parsable Date, the per-record loop of
`get_finance_tracker_df` produces exactly one `TransactionRow` per input
record, and each row's `amount`, `account` and `cash_flow_type` are exactly
the values the extractors pull from its source record. -/
theorem normalizer_preserves_valid_batch (sn : List (String × String))
    (sm : List (String × Option String)) (pages : List RawRecord)
    (h : ∀ p ∈ pages, validRecord p) :
    (normalize_records sn sm pages).length = pages.length ∧
      ∀ p ∈ pages, ∃ row, processPage sn sm p = some row ∧
        row ∈ normalize_records sn sm pages ∧
        row.amount = extract_number_type_info p.properties "Amount" ∧
        row.account = extract_select_type_info p.properties "Account" ∧
        row.cash_flow_type = extract_select_type_info p.properties "Cash Flow Type" := by
  constructor
  · have hadd := normalize_records_length_add sn sm pages
    have hflt : pages.filter (fun p => !(decide (validRecord p))) = [] := by
      rw [List.filter_eq_nil_iff]
      intro p hp
      simp [h p hp]
    rw [hflt] at hadd
    simpa using hadd
  · intro p hp
    obtain ⟨row, hrow, ha, hb, hc⟩ := processPage_fields sn sm p (h p hp)
    exact ⟨row, hrow, List.mem_filterMap.mpr ⟨p, hp, hrow⟩, ha, hb, hc⟩

/-- Witness for C1: a concrete two-record batch, both records valid; the
loop yields two rows preserving the extracted fields. -/
theorem normalizer_preserves_valid_batch_witness :
    (normalize_records [("sub-1", "Groceries")] [("Groceries", some "Food")]
        [⟨"p1", [("Name", PropValue.title ["Lunch"]),
                 ("Date", PropValue.date (some "2024-05-01")),
                 ("Amount", PropValue.number (some 1200)),
                 ("Cash Flow Type", PropValue.select (some "Expense"))]⟩,
         ⟨"p2", [("Name", PropValue.title ["Pay"]),
                 ("Date", PropValue.date (some "2024-05-02")),
                 ("Amount", PropValue.number (some 90000)),
                 ("Cash Flow Type", PropValue.select (some "Revenue"))]⟩]).length = 2 := by
  have h := normalizer_preserves_valid_batch [("sub-1", "Groceries")]
    [("Groceries", some "Food")]
    [⟨"p1", [("Name", PropValue.title ["Lunch"]),
             ("Date", PropValue.date (some "2024-05-01")),
             ("Amount", PropValue.number (some 1200)),
             ("Cash Flow Type", PropValue.select (some "Expense"))]⟩,
     ⟨"p2", [("Name", PropValue.title ["Pay"]),
             ("Date", PropValue.date (some "2024-05-02")),
             ("Amount", PropValue.number (some 90000)),
             ("Cash Flow Type", PropValue.select (some "Revenue"))]⟩]
    (by decide)
  exact h.1

/-- C2: records whose Name title or Date is missing, or whose Date fails to
parse, are exactly the records the loop skips; the output row count is the
input count minus the number of such invalid records, every skip yields
`none` instead of an exception aborting the batch, and every valid record
still yields its row. -/
theorem normalizer_skips_invalid_records (sn : List (String × String))
    (sm : List (String × Option String)) (pages : List RawRecord) :
    (normalize_records sn sm pages).length
        = pages.length - (pages.filter (fun p => !(decide (validRecord p)))).length ∧
      (∀ p ∈ pages, ¬ validRecord p → processPage sn sm p = none) ∧
      (∀ p ∈ pages, validRecord p → ∃ row, processPage sn sm p = some row ∧
          row ∈ normalize_records sn sm pages) := by
  refine ⟨?_, ?_, ?_⟩
  · have hadd := normalize_records_length_add sn sm pages
    omega
  · intro p _ hv
    exact (processPage_eq_none_iff sn sm p).mpr hv
  · intro p hp hv
    obtain ⟨row, hrow, -⟩ := processPage_fields sn sm p hv
    exact ⟨row, hrow, List.mem_filterMap.mpr ⟨p, hp, hrow⟩⟩

/-- Witness for C2: a concrete batch of three records of which one misses
its Date and one has an unparsable Date; the loop returns exactly one row. -/
theorem normalizer_skips_invalid_records_witness :
    (normalize_records [] []
        [⟨"p1", [("Name", PropValue.title ["Ok"]),
                 ("Date", PropValue.date (some "2024-05-01"))]⟩,
         ⟨"p2", [("Name", PropValue.title ["No date"])]⟩,
         ⟨"p3", [("Name", PropValue.title ["Bad date"]),
                 ("Date", PropValue.date (some "2024-13-99"))]⟩]).length
      = 3 - 2 := by
  have h := (normalizer_skips_invalid_records [] []
    [⟨"p1", [("Name", PropValue.title ["Ok"]),
             ("Date", PropValue.date (some "2024-05-01"))]⟩,
     ⟨"p2", [("Name", PropValue.title ["No date"])]⟩,
     ⟨"p3", [("Name", PropValue.title ["Bad date"]),
             ("Date", PropValue.date (some "2024-13-99"))]⟩]).1
  rw [h]
  decide

theorem processPage_main_category_from_dict (sn : List (String × String))
    (sm : List (String × Option String)) (page : RawRecord) (row : TransactionRow)
    (h : processPage sn sm page = some row) :
    ∀ v, row.main_category = some v → some v ∈ sm.map (·.2) := by
  intro v hv
  unfold processPage at h
  rcases hn : record_name page with _ | name
  · rw [hn] at h; cases h
  rcases hd : record_date page with _ | date
  · rw [hn, hd] at h; cases h
  rw [hn, hd] at h
  injection h with h
  subst h
  simp only at hv
  rcases hsub : (match extract_relation_type_info page.properties "Sub Category" with
    | some (i :: _) => dictGet sn i
    | _ => none : Option String) with _ | sname
  · rw [hsub] at hv; cases hv
  · rw [hsub] at hv
    have hv2 : (dictGet sm sname).join = some v := hv
    rcases hlook : dictGet sm sname with _ | mv
    · rw [hlook] at hv2; cases hv2
    · rw [hlook] at hv2
      simp only [Option.join] at hv2
      subst hv2
      exact dictGet_mem_values sm sname _ hlook

theorem sub_to_main_values_from_main (mainNames : List (String × String))
    (subPages : List RawRecord) :
    ∀ mv ∈ (get_sub_to_main_categories_mapping mainNames subPages).map (·.2),
      mv = none ∨ ∃ w, mv = some w ∧ w ∈ mainNames.map (·.2) := by
  intro mv hmv
  obtain ⟨e, he, hev⟩ := List.mem_map.mp hmv
  obtain ⟨page, -, hpe⟩ := List.mem_filterMap.mp he
  unfold subToMainEntry at hpe
  rcases ht : titleContent page.properties "Name" with _ | name
  · rw [ht] at hpe; cases hpe
  rw [ht] at hpe
  injection hpe with hpe
  subst hpe
  simp only at hev
  subst hev
  rcases hr : extract_relation_type_info page.properties "Main Finance Categories"
      with _ | ids
  · simp [hr]
  · rcases ids with _ | ⟨i, rest⟩
    · simp [hr]
    · simp only [hr]
      rcases hl : dictGet mainNames i with _ | w
      · exact Or.inl rfl
      · exact Or.inr ⟨w, rfl, dictGet_mem_values mainNames i w hl⟩

/-- C8: on every run of the fetch-and-shape pipeline, each produced row's
`main_category` is null or a value of the main-categories id-to-name
mapping resolved at the start of that run. -/
theorem pipeline_main_category_invariant
    (subPages mainPages finPages : List RawRecord)
    (mainNames : List (String × String)) (df : List TransactionRow)
    (hmain : get_page_name_mapping mainPages = some mainNames)
    (hdf : get_finance_tracker_df subPages mainPages finPages = some df) :
    ∀ row ∈ df, ∀ v, row.main_category = some v → v ∈ mainNames.map (·.2) := by
  unfold get_finance_tracker_df at hdf
  rcases hsub : get_page_name_mapping subPages with _ | subNames
  · rw [hsub] at hdf; cases hdf
  rw [hsub, hmain] at hdf
  injection hdf with hdf
  subst hdf
  intro row hrow v hv
  obtain ⟨p, -, hproc⟩ := List.mem_filterMap.mp hrow
  have hmem := processPage_main_category_from_dict subNames
    (get_sub_to_main_categories_mapping mainNames subPages) p row hproc v hv
  rcases sub_to_main_values_from_main mainNames subPages (some v) hmem with h | ⟨w, hw, hwm⟩
  · cases h
  · injection hw with hw
    subst hw
    exact hwm

/-- Witness for C8: a concrete run with one sub-category page, one
main-category page and one transaction page; the produced row's main
category "Food" is a value of the resolved main id-to-name mapping. -/
theorem pipeline_main_category_invariant_witness :
    "Food" ∈ [("main-1", "Food")].map (·.2) :=
  pipeline_main_category_invariant
    [⟨"sub-1", [("Name", PropValue.title ["Groceries"]),
                ("Main Finance Categories", PropValue.relation ["main-1"])]⟩]
    [⟨"main-1", [("Name", PropValue.title ["Food"])]⟩]
    [⟨"p1", [("Name", PropValue.title ["Lunch"]),
             ("Date", PropValue.date (some "2024-05-01")),
             ("Sub Category", PropValue.relation ["sub-1"])]⟩]
    [("main-1", "Food")]
    [⟨"Lunch", ⟨2024, 5, 1⟩, none, none, none, none, some "Groceries",
        some "Food"⟩]
    (by decide) (by decide)
    ⟨"Lunch", ⟨2024, 5, 1⟩, none, none, none, none, some "Groceries",
        some "Food"⟩
    (by decide) "Food" (by decide)

/-- C7 (failing path): the name-mapping builder has no per-record guard for
a present-but-empty title list; such a page raises `IndexError` and the
whole call aborts instead of skipping the record. -/
theorem page_name_mapping_raises_on_empty_title :
    get_page_name_mapping [⟨"page-1", [("Name", PropValue.title [])]⟩] = none := by
  decide

/-- The three-record input of the end-to-end scenario in the spec: Revenue
1000 on 2024-05-01, Expense 300 on 2024-05-15, Transfer to Savings 200 on
2024-05-20, all tagged Business-Related. -/
def scenario_table : List Row :=
  [⟨"Invoice", ⟨2024, 5, 1⟩, 1000, none, some "Revenue",
      some "Business-Related", none, none, none⟩,
   ⟨"Rent", ⟨2024, 5, 15⟩, 300, none, some "Expense",
      some "Business-Related", none, none, none⟩,
   ⟨"To savings", ⟨2024, 5, 20⟩, 200, none, some "Transfer to Savings",
      some "Business-Related", none, none, none⟩]

/-- C3: on the three-record scenario table, the expense-vs-revenue monthly
totals for 2024-05 are Revenue 1000 and Expense 500 (the savings transfer
relabeled to Expense), and the total-profit value is 500. -/
theorem expense_vs_revenue_scenario :
    monthly_cash_flow_total (bus_expense_vs_revenue_combined scenario_table)
        "2024-05" "Revenue" = 1000 ∧
      monthly_cash_flow_total (bus_expense_vs_revenue_combined scenario_table)
        "2024-05" "Expense" = 500 ∧
      bus_total_profit scenario_table = 500 := by
  have h1 : month_year_str ⟨2024, 5, 1⟩ = "2024-05" := rfl
  have h15 : month_year_str ⟨2024, 5, 15⟩ = "2024-05" := rfl
  have h20 : month_year_str ⟨2024, 5, 20⟩ = "2024-05" := rfl
  refine ⟨?_, ?_, ?_⟩ <;>
  · simp only [monthly_cash_flow_total, bus_expense_vs_revenue_combined,
      bus_total_profit, preprocess_business_data, filter_business_related,
      filter_cash_flow, add_month_year_column, scenario_table, h1, h15, h20,
      List.filter_cons, List.filter_nil, List.map_cons, List.map_nil,
      List.sum_cons, List.sum_nil, List.cons_append, List.nil_append,
      List.append_nil, Option.some.injEq]
    simp [h1, h15, h20] <;> norm_num

theorem mem_month_added_business (df : List Row) (b : String) (s : Row)
    (hs : s ∈ (add_month_year_column (filter_business_related df b)).2) :
    s.business_related = some b := by
  simp only [add_month_year_column] at hs
  obtain ⟨r0, hr0, heq⟩ := List.mem_map.mp hs
  simp only [filter_business_related] at hr0
  have hb : r0.business_related = some b := by
    simpa using (List.mem_filter.mp hr0).2
  rw [← heq]
  exact hb

/-- C6: a row enters the business-relation selection of a chart exactly
when its flag equals the requested sentinel; every row reaching the
sub-category pipeline carries the requested sentinel, and every row of the
business revenue-vs-expense combined table carries `"Business-Related"` —
so rows with any other flag value, null included, are excluded from both
the business and the personal computations. -/
theorem business_sentinel_filtering (df : List Row) (b : String)
    (cash_flow_types : List String) (r s : Row) :
    (r ∈ filter_business_related df b ↔ (r ∈ df ∧ r.business_related = some b)) ∧
      (s ∈ subcat_filtered df b cash_flow_types → s.business_related = some b) ∧
      (s ∈ busrev_combined df → s.business_related = some "Business-Related") := by
  refine ⟨?_, ?_, ?_⟩
  · simp [filter_business_related, List.mem_filter]
  · intro hs
    unfold subcat_filtered at hs
    exact mem_month_added_business df b s (List.mem_of_mem_filter hs)
  · intro hs
    unfold busrev_combined at hs
    rcases List.mem_append.mp hs with h1 | h2
    · rcases List.mem_append.mp h1 with ha | hb2
      · exact mem_month_added_business df _ s (List.mem_of_mem_filter ha)
      · exact mem_month_added_business df _ s (List.mem_of_mem_filter hb2)
    · obtain ⟨r1, hr1, heq⟩ := List.mem_map.mp h2
      have hb1 := mem_month_added_business df _ r1 (List.mem_of_mem_filter hr1)
      rw [← heq]
      exact hb1

/-- Witness for C6: on a one-row table whose flag is unset, membership in
the business selection is equivalent to the (false) requirement that the
null flag equal the sentinel. -/
theorem business_sentinel_filtering_witness :
    (⟨"Cash gift", ⟨2024, 5, 1⟩, 50, none, some "Expense", none, none, none,
        none⟩ : Row) ∈ filter_business_related
        [⟨"Cash gift", ⟨2024, 5, 1⟩, 50, none, some "Expense", none, none, none,
          none⟩] "Business-Related"
      ↔ ((⟨"Cash gift", ⟨2024, 5, 1⟩, 50, none, some "Expense", none, none, none,
          none⟩ : Row) ∈ [(⟨"Cash gift", ⟨2024, 5, 1⟩, 50, none, some "Expense",
          none, none, none, none⟩ : Row)]
        ∧ (none : Option String) = some "Business-Related") :=
  (business_sentinel_filtering
    [⟨"Cash gift", ⟨2024, 5, 1⟩, 50, none, some "Expense", none, none, none, none⟩]
    "Business-Related" []
    ⟨"Cash gift", ⟨2024, 5, 1⟩, 50, none, some "Expense", none, none, none, none⟩
    ⟨"Cash gift", ⟨2024, 5, 1⟩, 50, none, some "Expense", none, none, none, none⟩).1

/-- C9 counterexample: `add_month_year_column` hands back its input table
mutated in place — after the call the table has gained the `month_year`
column, so the input is not left unchanged. -/
theorem add_month_year_column_mutates :
    (add_month_year_column
        [⟨"Rent", ⟨2024, 5, 1⟩, 300, none, some "Expense",
            some "Business-Related", none, none, none⟩]).1
      ≠ [⟨"Rent", ⟨2024, 5, 1⟩, 300, none, some "Expense",
            some "Business-Related", none, none, none⟩] := by
  intro h
  simp only [add_month_year_column, List.map_cons, List.map_nil] at h
  have h1 := List.head_eq_of_cons_eq h
  have h2 := congrArg Row.month_year h1
  simp at h2

/-- C9 amended: the per-chart filter-and-prepare step copies its input
first, so in state-passing form the caller's table is returned unchanged;
`add_month_year_column`, in contrast, returns the very table it mutated. -/
theorem shaping_frame_behavior (df : List Row) (b : String)
    (cash_flow_types : List String) :
    (filter_and_prepare_data_call df b cash_flow_types).1 = df ∧
      (add_month_year_column df).1 = (add_month_year_column df).2 :=
  ⟨rfl, rfl⟩

theorem filter_comm_bool {α : Type} (p q : α → Bool) (l : List α) :
    (l.filter q).filter p = (l.filter p).filter q := by
  induction l with
  | nil => rfl
  | cons x l ih =>
    by_cases hp : p x <;> by_cases hq : q x <;>
      simp [List.filter_cons, hp, hq, ih]

theorem filter_map_comm {α β : Type} (f : α → β) (q : β → Bool) (q' : α → Bool)
    (hf : ∀ r, q (f r) = q' r) (l : List α) :
    (l.filter q').map f = (l.map f).filter q := by
  induction l with
  | nil => rfl
  | cons x l ih =>
    by_cases h : q' x <;> simp [List.filter_cons, h, hf, ih]

theorem filterMap_filter_eq {α β : Type} (q : α → Bool) (key : α → Option β)
    (h : ∀ x, key x ≠ none → q x = true) (l : List α) :
    (l.filter q).filterMap key = l.filterMap key := by
  induction l with
  | nil => rfl
  | cons x l ih =>
    by_cases hq : q x
    · simp [List.filter_cons, hq, List.filterMap_cons, ih]
    · have hk : key x = none := by
        by_contra hk
        exact hq (h x hk)
      simp [List.filter_cons, hq, List.filterMap_cons, hk, ih]

theorem filter_fiber_eq {α β : Type} [DecidableEq β] (q : α → Bool) (key : α → Option β)
    (h : ∀ x, key x ≠ none → q x = true) (l : List α) (k : β) :
    (l.filter q).filter (fun x => decide (key x = some k))
      = l.filter (fun x => decide (key x = some k)) := by
  induction l with
  | nil => rfl
  | cons x l ih =>
    by_cases hq : q x
    · by_cases hk : key x = some k <;> simp [List.filter_cons, hq, hk, ih]
    · have hk : key x = none := by
        by_contra hk
        exact hq (h x hk)
      simp [List.filter_cons, hq, hk, ih]

/-- Rows with both categories present: the rows pandas keeps in the
three-key group-by. -/
def bothCats (r : Row) : Bool :=
  (r.main_category).isSome && (r.sub_category).isSome

theorem subcatKey_ne_none_bothCats (r : Row) (h : subcatKey r ≠ none) :
    bothCats r = true := by
  unfold subcatKey at h
  unfold bothCats
  rcases hmy : r.month_year with _ | my <;>
    rcases hmc : r.main_category with _ | mc <;>
    rcases hsc : r.sub_category with _ | sc <;>
    rw [hmy, hmc, hsc] at h <;> revert h <;> simp

theorem subcat_filtered_bothCats (df : List Row) (b : String) (cfts : List String) :
    subcat_filtered (df.filter bothCats) b cfts
      = (subcat_filtered df b cfts).filter bothCats := by
  unfold subcat_filtered filter_business_related add_month_year_column
  simp only
  rw [filter_comm_bool]
  rw [filter_map_comm (fun r : Row =>
      { r with month_year := some (month_year_str r.date) }) bothCats bothCats
      (fun r => rfl)]
  rw [filter_comm_bool]

theorem subcat_triples_bothCats (l : List Row) :
    subcat_triples (l.filter bothCats) = subcat_triples l := by
  unfold subcat_triples
  rw [filterMap_filter_eq bothCats subcatKey subcatKey_ne_none_bothCats]
  refine List.map_congr_left ?_
  intro k _
  rw [filter_fiber_eq bothCats subcatKey subcatKey_ne_none_bothCats]

theorem subcatKey_some (s : Row) (k : String × String × String)
    (h : subcatKey s = some k) :
    s.month_year = some k.1 ∧ s.main_category = some k.2.1
      ∧ s.sub_category = some k.2.2 := by
  unfold subcatKey at h
  rcases hmy : s.month_year with _ | my <;>
    rcases hmc : s.main_category with _ | mc <;>
    rcases hsc : s.sub_category with _ | sc <;>
    rw [hmy, hmc, hsc] at h <;> cases h <;> exact ⟨rfl, rfl, rfl⟩

/-- C10: rows whose main or sub category is null are invisible to the
by-category shaping — dropping them beforehand leaves the whole grouped
table (group sums, main-category sums and monthly totals) unchanged — and
every grouped row originates from an input row carrying both categories. -/
theorem subcat_grouped_drops_null_categories (df : List Row) (b : String)
    (cfts : List String) :
    subcat_grouped (df.filter bothCats) b cfts = subcat_grouped df b cfts ∧
      ∀ g ∈ subcat_grouped df b cfts, ∃ r ∈ df,
        r.main_category = some g.main_category
          ∧ r.sub_category = some g.sub_category := by
  constructor
  · unfold subcat_grouped
    rw [subcat_filtered_bothCats, subcat_triples_bothCats]
  · intro g hg
    unfold subcat_grouped at hg
    obtain ⟨t, ht, hgt⟩ := List.mem_map.mp hg
    unfold subcat_triples at ht
    obtain ⟨k, hk, hkt⟩ := List.mem_map.mp ht
    have hk2 : k ∈ (subcat_filtered df b cfts).filterMap subcatKey :=
      List.mem_dedup.mp hk
    obtain ⟨s, hs, hsk⟩ := List.mem_filterMap.mp hk2
    obtain ⟨-, hmc, hsc⟩ := subcatKey_some s k hsk
    unfold subcat_filtered at hs
    have hs2 := List.mem_of_mem_filter hs
    simp only [add_month_year_column] at hs2
    obtain ⟨r0, hr0, heq⟩ := List.mem_map.mp hs2
    simp only [filter_business_related] at hr0
    refine ⟨r0, List.mem_of_mem_filter hr0, ?_, ?_⟩
    · have : r0.main_category = s.main_category := by rw [← heq]
      rw [this, hmc, ← hgt, ← hkt]
    · have : r0.sub_category = s.sub_category := by rw [← heq]
      rw [this, hsc, ← hgt, ← hkt]

/-- Witness for C10: on a concrete table containing a row with a null
sub-category, pre-dropping null-category rows leaves the grouped output
unchanged. -/
theorem subcat_grouped_drops_null_categories_witness :
    subcat_grouped
        ([⟨"Lunch", ⟨2024, 5, 1⟩, 900, none, some "Expense",
            some "Not Business-Related", some "Groceries", some "Food", none⟩,
          ⟨"Mystery", ⟨2024, 5, 2⟩, 50, none, some "Expense",
            some "Not Business-Related", none, none, none⟩].filter bothCats)
        "Not Business-Related" ["Expense"]
      = subcat_grouped
        [⟨"Lunch", ⟨2024, 5, 1⟩, 900, none, some "Expense",
            some "Not Business-Related", some "Groceries", some "Food", none⟩,
         ⟨"Mystery", ⟨2024, 5, 2⟩, 50, none, some "Expense",
            some "Not Business-Related", none, none, none⟩]
        "Not Business-Related" ["Expense"] :=
  (subcat_grouped_drops_null_categories
    [⟨"Lunch", ⟨2024, 5, 1⟩, 900, none, some "Expense",
        some "Not Business-Related", some "Groceries", some "Food", none⟩,
     ⟨"Mystery", ⟨2024, 5, 2⟩, 50, none, some "Expense",
        some "Not Business-Related", none, none, none⟩]
    "Not Business-Related" ["Expense"]).1

/-- C5: the waterfall shaping negates expenses and savings-transfers, keeps
revenue positive, groups by exact date, and renders the per-date nets in
chronological order; the sum of all relative deltas equals total revenue
minus total expenses minus total savings-transfers of the filtered set,
exactly. -/
theorem waterfall_deltas_shape (df : List Row) :
    ((bus_waterfall_deltas df).map (·.2)).sum
        = ((filter_cash_flow (preprocess_business_data df) "Revenue").map
            (·.amount)).sum
          - ((filter_cash_flow (preprocess_business_data df) "Expense").map
            (·.amount)).sum
          - ((filter_cash_flow (preprocess_business_data df)
              "Transfer to Savings").map (·.amount)).sum
      ∧ List.Sorted byDateLe (bus_waterfall_deltas df) := by
  constructor
  · have hperm : (bus_waterfall_deltas df).Perm
        (waterfall_date_groups (bus_waterfall_combined df)) :=
      List.perm_insertionSort byDateLe _
    rw [(hperm.map (·.2)).sum_eq]
    have hsum2 : ((waterfall_date_groups (bus_waterfall_combined df)).map (·.2)).sum
        = ((bus_waterfall_combined df).map (·.amount)).sum := by
      unfold waterfall_date_groups
      rw [List.map_map]
      exact sum_over_dedup_fibers_total (fun r : Row => r.date)
        (fun r => r.amount) (bus_waterfall_combined df)
    rw [hsum2]
    unfold bus_waterfall_combined
    simp only [List.map_append, List.sum_append, List.map_map, Function.comp_def]
    rw [List.sum_map_mul_left, List.sum_map_mul_left]
    ring
  · exact List.sorted_insertionSort byDateLe _

/-- C4 (amended): for every month shown by the percent-stacked shaping
whose monthly total is nonzero, the sub-category percentages of that month
sum exactly to 100 under exact rational arithmetic. -/
theorem subcat_percent_sum_100 (df : List Row) (b : String) (cfts : List String)
    (my : String)
    (_hmem : my ∈ (subcat_grouped df b cfts).map (·.month_year))
    (hT : subcat_monthly_total df b cfts my ≠ 0) :
    subcat_percent_sum df b cfts my = 100 := by
  clear _hmem
  unfold subcat_percent_sum subcat_grouped
  rw [List.filter_map]
  rw [List.map_map]
  have hcong : ∀ t ∈ (subcat_triples (subcat_filtered df b cfts)).filter
      ((fun g => decide (g.month_year = my)) ∘ (fun t =>
        ({ month_year := t.1.1
           main_category := t.1.2.1
           sub_category := t.1.2.2
           amount := t.2
           main_category_sum :=
             (((subcat_triples (subcat_filtered df b cfts)).filter (fun u =>
                 decide (u.1.1 = t.1.1) && decide (u.1.2.1 = t.1.2.1))).map (·.2)).sum
           amount_monthly_total :=
             (((subcat_triples (subcat_filtered df b cfts)).filter (fun u =>
                 decide (u.1.1 = t.1.1))).map (·.2)).sum } : GRow))),
      (subcat_percentage ∘ (fun t =>
        ({ month_year := t.1.1
           main_category := t.1.2.1
           sub_category := t.1.2.2
           amount := t.2
           main_category_sum :=
             (((subcat_triples (subcat_filtered df b cfts)).filter (fun u =>
                 decide (u.1.1 = t.1.1) && decide (u.1.2.1 = t.1.2.1))).map (·.2)).sum
           amount_monthly_total :=
             (((subcat_triples (subcat_filtered df b cfts)).filter (fun u =>
                 decide (u.1.1 = t.1.1))).map (·.2)).sum } : GRow))) t
        = t.2 * (100 / subcat_monthly_total df b cfts my) := by
    intro t ht
    have h1 : t.1.1 = my := by
      have := (List.mem_filter.mp ht).2
      simpa using this
    show t.2 / (((subcat_triples (subcat_filtered df b cfts)).filter (fun u =>
        decide (u.1.1 = t.1.1))).map (·.2)).sum * 100
      = t.2 * (100 / subcat_monthly_total df b cfts my)
    rw [h1]
    unfold subcat_monthly_total
    rw [div_mul_eq_mul_div, mul_div_assoc]
  rw [List.map_congr_left hcong]
  rw [List.sum_map_mul_right]
  have hfib : ((subcat_triples (subcat_filtered df b cfts)).filter
        ((fun g => decide (g.month_year = my)) ∘ (fun t =>
          ({ month_year := t.1.1
             main_category := t.1.2.1
             sub_category := t.1.2.2
             amount := t.2
             main_category_sum :=
               (((subcat_triples (subcat_filtered df b cfts)).filter (fun u =>
                   decide (u.1.1 = t.1.1) && decide (u.1.2.1 = t.1.2.1))).map (·.2)).sum
             amount_monthly_total :=
               (((subcat_triples (subcat_filtered df b cfts)).filter (fun u =>
                   decide (u.1.1 = t.1.1))).map (·.2)).sum } : GRow))))
      = (subcat_triples (subcat_filtered df b cfts)).filter (fun u =>
          decide (u.1.1 = my)) :=
    List.filter_congr (fun t _ => rfl)
  rw [hfib]
  have hTdef : ((((subcat_triples (subcat_filtered df b cfts)).filter (fun u =>
      decide (u.1.1 = my))).map (·.2)).sum) = subcat_monthly_total df b cfts my := rfl
  rw [hTdef]
  rw [← mul_div_assoc]
  exact mul_div_cancel_left₀ 100 hT

/-- The one-record zero-amount table of the C4 counterexample. -/
def c4_zero_table : List Row :=
  [⟨"Freebie", ⟨2024, 5, 1⟩, 0, none, some "Expense",
      some "Not Business-Related", some "Groceries", some "Food", none⟩]

/-- C4 counterexample: a month present after filtering whose monthly total
is 0 (a single zero-amount expense); its percentage sum is 0, not 100, so
the claim does not hold for every month present. -/
theorem subcat_percent_sum_zero_month :
    "2024-05" ∈ (subcat_grouped c4_zero_table
        "Not Business-Related" ["Expense"]).map (·.month_year) ∧
      subcat_percent_sum c4_zero_table
        "Not Business-Related" ["Expense"] "2024-05" ≠ 100 := by
  have h1 : month_year_str ⟨2024, 5, 1⟩ = "2024-05" := rfl
  have h2 : subcat_filtered c4_zero_table "Not Business-Related" ["Expense"]
      = [⟨"Freebie", ⟨2024, 5, 1⟩, 0, none, some "Expense",
          some "Not Business-Related", some "Groceries", some "Food",
          some "2024-05"⟩] := by
    simp [subcat_filtered, filter_business_related, add_month_year_column,
      c4_zero_table, h1]
  have h3 : subcat_triples (subcat_filtered c4_zero_table
        "Not Business-Related" ["Expense"])
      = [(("2024-05", "Food", "Groceries"), 0)] := by
    rw [h2]
    simp [subcat_triples, subcatKey]
  have h4 : subcat_grouped c4_zero_table "Not Business-Related" ["Expense"]
      = [⟨"2024-05", "Food", "Groceries", 0, 0, 0⟩] := by
    unfold subcat_grouped
    rw [h3]
    simp
  have h5 : subcat_percent_sum c4_zero_table
      "Not Business-Related" ["Expense"] "2024-05" = 0 := by
    unfold subcat_percent_sum
    rw [h4]
    simp [subcat_percentage]
  constructor
  · rw [h4]
    simp
  · rw [h5]
    norm_num

/-- The one-record table of the C4 witness. -/
def c4_pos_table : List Row :=
  [⟨"Lunch", ⟨2024, 5, 1⟩, 400, none, some "Expense",
      some "Not Business-Related", some "Groceries", some "Food", none⟩]

/-- Witness for C4's amended theorem: a one-expense month with a nonzero
monthly total has percentage sum exactly 100. -/
theorem subcat_percent_sum_100_witness :
    subcat_percent_sum c4_pos_table
        "Not Business-Related" ["Expense"] "2024-05" = 100 := by
  have h1 : month_year_str ⟨2024, 5, 1⟩ = "2024-05" := rfl
  have h2 : subcat_filtered c4_pos_table "Not Business-Related" ["Expense"]
      = [⟨"Lunch", ⟨2024, 5, 1⟩, 400, none, some "Expense",
          some "Not Business-Related", some "Groceries", some "Food",
          some "2024-05"⟩] := by
    simp [subcat_filtered, filter_business_related, add_month_year_column,
      c4_pos_table, h1]
  have h3 : subcat_triples (subcat_filtered c4_pos_table
        "Not Business-Related" ["Expense"])
      = [(("2024-05", "Food", "Groceries"), 400)] := by
    rw [h2]
    simp [subcat_triples, subcatKey]
  apply subcat_percent_sum_100
  · unfold subcat_grouped
    rw [h3]
    simp
  · unfold subcat_monthly_total
    rw [h3]
    simp
